import Mathlib

/-!
Verification of the document-to-decision pipeline of the Hackxios backend
(src/backend). The embedding below follows the Python source: the routes
`analyze_documents` and `generate_appeal_letter_endpoint` of
src/backend/routes/analyze.py and `generate_appeal_letter` of
src/backend/routes/appeal.py. The LLM clients (llm/extract_llm8b.py and
llm/reasoning_llm70b.py) and the PDF renderers are external collaborators
that are not part of the sources; they are taken as parameters (oracles),
and where a claim depends on their behaviour a definition modelled from
the specification document is supplied and marked as such.
-/

namespace Hackxios

/-- Extracted fields of a document: a lookup mapping from field name to
string value, mirroring the Python dict returned by the extractor.
`get` returns the first binding of a key; `set` shadows a key with a new
value, mirroring a Python dict item assignment as observed through `get`. -/
def Fields : Type := List (String × String)

instance : DecidableEq Fields := by
  unfold Fields
  infer_instance

def Fields.get (f : Fields) (k : String) : Option String :=
  (List.find? (fun p => p.1 == k) f).map (fun p => p.2)

def Fields.set (f : Fields) (k v : String) : Fields :=
  (k, v) :: f

/-- Python truthiness test `not d.get(k)` on an optional string field:
true when the key is absent or its value is the empty string. -/
def fieldFalsy : Option String → Bool
  | none => true
  | some s => s.isEmpty

/-- An uploaded document row as used by the routes: id, filename, storage
path and the OCR text (possibly empty). -/
structure Document where
  id : Nat
  filename : String
  file_path : String
  ocr_text : String
deriving DecidableEq

/-- Charwise model of the Python `str.replace("\\", "/")` used to
standardize path separators (the pattern is a single character, so the
substring replace is a character map). -/
def normPath (p : String) : String :=
  String.mk (p.data.map (fun c => if c = '\\' then '/' else c))

/-- `startsWithSeq pat cs`: the character list `cs` starts with `pat`. -/
def startsWithSeq : List Char → List Char → Bool
  | [], _ => true
  | _ :: _, [] => false
  | p :: ps, c :: cs => p == c && startsWithSeq ps cs

/-- `containsSeq pat cs`: `pat` occurs as a contiguous subsequence of
`cs`; this is the Python substring test `pat in s` on character lists. -/
def containsSeq (pat : List Char) : List Char → Bool
  | [] => startsWithSeq pat []
  | c :: cs => startsWithSeq pat (c :: cs) || containsSeq pat cs

/-- Python `pat in s` on strings. -/
def strContains (s pat : String) : Bool :=
  containsSeq pat.data s.data

/-- The location-based classification override of
src/backend/routes/analyze.py (lines 72-76 and 221-222): after
standardizing separators, the document is forced to `denial_letter`
when the path contains the substring `/Denial/` or the substring
`/UserData/Denial`. -/
def forcedDenial (file_path : String) : Bool :=
  let norm := normPath file_path
  strContains norm "/Denial/" || strContains norm "/UserData/Denial"

/-- Splits a character list on `/`, yielding the path components. Used
only by `hasDenialComponent` below, which renders the wording of the
specification for comparison with `forcedDenial`. -/
def splitSlash : List Char → List (List Char)
  | [] => [[]]
  | c :: rest =>
    match splitSlash rest with
    | [] => [[]]
    | g :: gs => if c = '/' then [] :: g :: gs else (c :: g) :: gs

/-- Stated from the specification, for comparison with the source
condition `forcedDenial`: the storage path contains a path segment
exactly equal to `Denial` (case-sensitive, matched as a full path
component, independent of separator style). -/
def hasDenialComponent (p : String) : Bool :=
  (splitSlash (normPath p).data).contains "Denial".data

/-- The extraction LLM client (llm/extract_llm8b.py, not under the
sources): classification of raw text to a document-type label, and field
extraction from text given a label. Taken as a parameter of the
pipeline. -/
structure ExtractOracle where
  classify_document : String → String
  extract_fields : String → String → Fields

/-- The classification step applied to one document in both routes of
src/backend/routes/analyze.py: the location-based override is checked
first; otherwise the LLM classifier is consulted with the raw text. -/
def classify (xo : ExtractOracle) (doc : Document) : String :=
  if forcedDenial doc.file_path then "denial_letter"
  else xo.classify_document doc.ocr_text

/-- The denial-reason placeholder written by the fallback patch of
src/backend/routes/analyze.py line 230. -/
def ctReasonText : String :=
  "The requested procedure (CT Abdomen) is not medically necessary according to clinical guidelines. Conservative treatment should be attempted first."

/-- The placeholder text the specification claims for the fallback
patch, which differs from `ctReasonText` of the source. -/
def specReasonText : String :=
  "The requested procedure is not medically necessary according to clinical guidelines. Conservative treatment should be attempted first."

/-- The fallback patch of src/backend/routes/analyze.py lines 229-232
(the HACKATHON FIX in `generate_appeal_letter_endpoint`): when the type
is `denial_letter` and `denial_reason` is absent or empty, set the
placeholder triplet; otherwise leave the fields unchanged. -/
def applyDenialFallback (doc_type : String) (fields : Fields) : Fields :=
  if doc_type == "denial_letter" && fieldFalsy (fields.get "denial_reason") then
    ((fields.set "denial_reason" ctReasonText).set "denial_code" "CO-50").set
      "appeal_deadline" "60 days from date of letter"
  else fields

/-- One entry of the `extracted_documents` list built by
`analyze_documents` (src/backend/routes/analyze.py lines 98-103). -/
structure ExtractedDoc where
  document_id : Nat
  filename : String
  type : String
  fields : Fields
deriving DecidableEq

/-- A rules document, loaded from a JSON file; its content is opaque to
the pipeline, which only passes it along. -/
def Rules : Type := String

instance : DecidableEq Rules := by
  unfold Rules
  infer_instance

/-- The insurance-rules directory as a lookup from the normalized plan
key (the stem of the JSON filename) to the rules document, `none` when
no file with that name exists. -/
def RuleStore : Type := String → Option Rules

/-- Charwise model of Python `str.lower()` (the plan names are ASCII). -/
def pyLower (s : String) : String :=
  String.mk (s.data.map Char.toLower)

/-- Charwise model of Python `str.replace(" ", "_")`: the pattern is a
single character, so the substring replace is a character map. -/
def pyReplaceSpace (s : String) : String :=
  String.mk (s.data.map (fun c => if c = ' ' then '_' else c))

/-- The rule-file key built in src/backend/routes/analyze.py lines 110
and 247 and src/backend/routes/appeal.py line 92:
`plan.lower().replace(" ", "_")`. -/
def normalizePlanKey (plan : String) : String :=
  pyReplaceSpace (pyLower plan)

/-- Rule loading as performed by all three routes: no plan requested, or
no file under the normalized key, yields `none` and is not an error. -/
def loadRules (store : RuleStore) (plan : Option String) : Option Rules :=
  plan.bind (fun p => store (normalizePlanKey p))

/-- The structured output of the pre-claim reasoning call, as read by
`analyze_documents`: the route reads the keys `denial_risk_score` and
`missing_requirements` with defaults 0 and the empty list
(src/backend/routes/analyze.py lines 127-128), so each is optional. -/
structure PreClaimOut where
  denial_risk_score : Option Int
  missing_requirements : Option (List String)
deriving DecidableEq

/-- The reasoning output stored and returned by `analyze_documents`:
the pre-claim structure, the denial-explanation text, or nothing when
the analysis type matches neither branch. -/
inductive ReasoningOutput where
  | preClaim (out : PreClaimOut)
  | explanation (text : String)
deriving DecidableEq

/-- The reasoning LLM client (llm/reasoning_llm70b.py, not under the
sources). `generate_appeal_letter` takes the denial fields, doctor-note
fields, bill fields, the optional rules and the optional user details,
and returns the structured letter content (a string-to-string mapping,
per the comment at src/backend/routes/analyze.py line 258). -/
structure ReasoningOracle where
  analyze_pre_claim : List ExtractedDoc → Option Rules → PreClaimOut
  explain_denial : Fields → List ExtractedDoc → String
  generate_appeal_letter :
    Fields → Fields → Fields → Option Rules → Option Fields → Fields

/-- The request body of the `/analyze` route
(src/backend/routes/analyze.py lines 23-27). -/
structure AnalyzeRequest where
  document_ids : List Nat
  insurance_plan : Option String
  analysis_type : String

/-- The `ReasoningResult` row stored by `analyze_documents`
(src/backend/routes/analyze.py lines 155-162), restricted to the fields
the claims are about. -/
structure ReasoningRecord where
  reasoning_type : String
  output_data : Option ReasoningOutput
  denial_risk_score : Int
  missing_requirements : List String
deriving DecidableEq

/-- The JSON body returned by `analyze_documents` on success
(src/backend/routes/analyze.py lines 177-185). -/
structure AnalyzeResponse where
  success : Bool
  analysis_type : String
  extracted_documents : List ExtractedDoc
  reasoning_result : Option ReasoningOutput
  denial_risk_score : Int
  missing_requirements : List String
deriving DecidableEq

/-- Outcome of one `/analyze` call: an HTTP error with status and
detail, or the success response together with the stored
`ReasoningResult` row. -/
inductive AnalyzeResult where
  | httpError (status : Nat) (detail : String)
  | ok (resp : AnalyzeResponse) (stored : ReasoningRecord)
deriving DecidableEq

/-- The database retrieval shared by the routes: the rows of
`UploadedDocument` whose id is among the requested ids. -/
def docsFor (db : List Document) (ids : List Nat) : List Document :=
  db.filter (fun d => ids.contains d.id)

/-- The classification-and-extraction loop of `analyze_documents`
(src/backend/routes/analyze.py lines 64-103): documents with empty OCR
text are skipped; the rest are classified (location override first,
then the LLM) and their fields extracted. No fallback patch is applied
in this route. -/
def extractLoop (xo : ExtractOracle) (docs : List Document) : List ExtractedDoc :=
  docs.filterMap (fun doc =>
    if doc.ocr_text = "" then none
    else
      let doc_type := classify xo doc
      some ⟨doc.id, doc.filename, doc_type, xo.extract_fields doc.ocr_text doc_type⟩)

/-- The `/analyze` route `analyze_documents` of
src/backend/routes/analyze.py: retrieve the documents (404 when none),
classify and extract, load the rules, then branch on the analysis type:
`pre_claim` runs the pre-claim reasoning and reads score and missing
requirements with defaults; `denial_explanation` requires a document of
type `denial_letter` (400 otherwise) and runs the explanation on its
fields with the other documents as support; any other type skips
reasoning and stores null output with score 0. -/
def analyze_documents (xo : ExtractOracle) (ro : ReasoningOracle)
    (store : RuleStore) (db : List Document) (req : AnalyzeRequest) :
    AnalyzeResult :=
  let documents := docsFor db req.document_ids
  if documents.isEmpty then
    .httpError 404 "No documents found with provided IDs"
  else
    let extracted_documents := extractLoop xo documents
    let insurance_rules := loadRules store req.insurance_plan
    if req.analysis_type = "pre_claim" then
      let r := ro.analyze_pre_claim extracted_documents insurance_rules
      let score := r.denial_risk_score.getD 0
      let missing := r.missing_requirements.getD []
      .ok ⟨true, req.analysis_type, extracted_documents,
            some (.preClaim r), score, missing⟩
          ⟨req.analysis_type, some (.preClaim r), score, missing⟩
    else if req.analysis_type = "denial_explanation" then
      match extracted_documents.find? (fun d => d.type == "denial_letter") with
      | none => .httpError 400 "No denial letter found in uploaded documents"
      | some denial_doc =>
        let supporting :=
          extracted_documents.filter (fun d => d.type != "denial_letter")
        let expl := ro.explain_denial denial_doc.fields supporting
        .ok ⟨true, req.analysis_type, extracted_documents,
              some (.explanation expl), 0, []⟩
            ⟨req.analysis_type, some (.explanation expl), 0, []⟩
    else
      .ok ⟨true, req.analysis_type, extracted_documents, none, 0, []⟩
          ⟨req.analysis_type, none, 0, []⟩

/-- The request body of the `/appeal-letter` route of
src/backend/routes/analyze.py (lines 194-197). -/
structure AppealRequest where
  document_ids : List Nat
  insurance_plan : Option String
  user_details : Option Fields

/-- One entry of the `extracted_documents` list built by the
`/appeal-letter` routes: type and fields only. -/
structure AppealDoc where
  type : String
  fields : Fields
deriving DecidableEq

/-- Outcome of the `/appeal-letter` route of
src/backend/routes/analyze.py: an HTTP error, or the file response; the
structured letter content handed to the PDF renderer is carried so its
fields can be inspected. -/
inductive AppealResult where
  | httpError (status : Nat) (detail : String)
  | fileOk (appeal_content : Fields)
deriving DecidableEq

/-- The PDF renderer `create_appeal_pdf` of utils/pdf_generator.py (not
under the sources): given the structured content and the user details it
returns a success flag and an error message
(src/backend/routes/analyze.py line 279). -/
def PdfRenderer : Type := Fields → Fields → Bool × String

/-- The classification-and-extraction loop of
`generate_appeal_letter_endpoint` (src/backend/routes/analyze.py lines
215-237): the same location override and LLM classification as
`analyze_documents`, followed by field extraction and the fallback
patch. Unlike `analyze_documents`, this loop has no empty-text skip:
every retrieved document is classified and extracted. -/
def appealExtract (xo : ExtractOracle) (docs : List Document) : List AppealDoc :=
  docs.map (fun doc =>
    let doc_type := classify xo doc
    let extracted_fields :=
      applyDenialFallback doc_type (xo.extract_fields doc.ocr_text doc_type)
    ⟨doc_type, extracted_fields⟩)

/-- The synthetic denial fields substituted by
src/backend/routes/analyze.py line 254 when no denial letter is found
in the appeal flow. -/
def syntheticDenialFields : Fields :=
  [("denial_reason", "Not Medically Necessary"), ("denial_code", "Unknown")]

/-- The `/appeal-letter` route `generate_appeal_letter_endpoint` of
src/backend/routes/analyze.py: retrieve the documents, classify and
extract each (with the fallback patch), pick out the denial letter, the
medical bill and the doctor note, load the rules, substitute the
synthetic denial record when no denial letter is present, generate the
letter content via the reasoning LLM, and render the PDF; a renderer
failure raises a 500 with a PDF-specific detail. (The catch-all handler
at lines 293-295 re-wraps that exception; it keeps status 500 and the
detail text.) This route never writes the letter content to the
database. -/
def generate_appeal_letter_endpoint (xo : ExtractOracle) (ro : ReasoningOracle)
    (store : RuleStore) (render : PdfRenderer) (db : List Document)
    (req : AppealRequest) : AppealResult :=
  let documents := docsFor db req.document_ids
  let extracted_documents := appealExtract xo documents
  let denial_doc := extracted_documents.find? (fun d => d.type == "denial_letter")
  let medical_bill := extracted_documents.find? (fun d => d.type == "medical_bill")
  let doctor_note := extracted_documents.find? (fun d => d.type == "doctor_note")
  let insurance_rules := loadRules store req.insurance_plan
  let denial_fields :=
    match denial_doc with
    | some d => d.fields
    | none => syntheticDenialFields
  let appeal_content :=
    ro.generate_appeal_letter denial_fields
      ((doctor_note.map (fun d => d.fields)).getD [])
      ((medical_bill.map (fun d => d.fields)).getD [])
      insurance_rules req.user_details
  match render appeal_content (req.user_details.getD []) with
  | (true, _) => .fileOk appeal_content
  | (false, error) => .httpError 500 ("PDF Generation failed: " ++ error)

/-- The request body of the `/appeal-letter` route of
src/backend/routes/appeal.py (lines 26-29). -/
structure AppealPyRequest where
  document_ids : List Nat
  insurance_plan : Option String

/-- Outcome of the `/appeal-letter` route of
src/backend/routes/appeal.py, paired with the list of letter contents
persisted as `GeneratedAppeal` rows during the call (the route stores
the row only after the PDF has been generated). -/
inductive AppealPyOutcome where
  | httpError (status : Nat) (detail : String)
  | fileOk (appeal_text : Fields)
deriving DecidableEq

/-- The PDF generator `AppealLetterPDF.generate_appeal_letter` of
utils/pdf_tools.py (not under the sources), as seen by
src/backend/routes/appeal.py: it either succeeds or raises; a raise is
modelled as `false`. Arguments: the letter content and the patient
name. -/
def PdfTool : Type := Fields → String → Bool

/-- The classification-and-extraction loop of appeal.py lines 69-79:
documents with empty OCR text are skipped; classification is purely by
the LLM (this route has no location override and no fallback patch). -/
def appealPyExtract (xo : ExtractOracle) (docs : List Document) : List AppealDoc :=
  docs.filterMap (fun doc =>
    if doc.ocr_text = "" then none
    else
      let doc_type := xo.classify_document doc.ocr_text
      some ⟨doc_type, xo.extract_fields doc.ocr_text doc_type⟩)

/-- The `/appeal-letter` route `generate_appeal_letter` of
src/backend/routes/appeal.py: requires at least two retrieved documents
(400), classifies and extracts the non-empty ones, requires a denial
letter (400), loads the rules, generates the letter content, renders
the PDF (a raise becomes a 500 through the catch-all handler and
nothing is stored), and only then stores the `GeneratedAppeal` row with
the letter content. This route is registered after the analyze router
in main.py, so its path is shadowed by
`generate_appeal_letter_endpoint`. -/
def appealPy_generate (xo : ExtractOracle) (ro : ReasoningOracle)
    (store : RuleStore) (pdf : PdfTool) (db : List Document)
    (req : AppealPyRequest) : AppealPyOutcome × List Fields :=
  let documents := docsFor db req.document_ids
  if documents.length < 2 then
    (.httpError 400 "At least 2 documents required (denial letter + supporting docs)", [])
  else
    let extracted_documents := appealPyExtract xo documents
    let denial_doc := extracted_documents.find? (fun d => d.type == "denial_letter")
    let doctor_note := extracted_documents.find? (fun d => d.type == "doctor_note")
    let bill_doc := extracted_documents.find? (fun d => d.type == "medical_bill")
    match denial_doc with
    | none => (.httpError 400 "Denial letter is required", [])
    | some denial =>
      let insurance_rules := loadRules store req.insurance_plan
      let appeal_text :=
        ro.generate_appeal_letter denial.fields
          ((doctor_note.map (fun d => d.fields)).getD [])
          ((bill_doc.map (fun d => d.fields)).getD [])
          insurance_rules none
      let patient_name := (denial.fields.get "patient_name").getD "Patient"
      if pdf appeal_text patient_name then
        (.fileOk appeal_text, [appeal_text])
      else
        (.httpError 500 "Error: PDF generation raised", [])

/-- Modelled from the spec: the reasoning LLM client
llm/reasoning_llm70b.py is not under the sources. Per section 4.4 of the
specification, `pre_claim` always returns a result object with a
denial-risk score in [0,100] and a missing-requirements list, degrading
to a best-effort heuristic score when the rules are null and never
failing; `denial_explanation` produces a structured explanation from the
denial fields; `generate_appeal_letter` produces structured letter
content (salutation, body, closing) whose `denial_code` field carries
the code of the denial record it was given (per the section 8 scenario,
that field equals "Unknown" when the synthetic fallback record is
used). -/
def specReasoningOracle : ReasoningOracle where
  analyze_pre_claim := fun _ rules =>
    ⟨some (if rules.isNone then 50 else 20), some []⟩
  explain_denial := fun fields _ =>
    "Denied: " ++ ((fields.get "denial_reason").getD "unspecified")
  generate_appeal_letter := fun denial _ _ _ _ =>
    [("salutation", "To Whom It May Concern"),
     ("body", "Appeal regarding " ++ ((denial.get "denial_reason").getD "")),
     ("closing", "Sincerely"),
     ("denial_code", (denial.get "denial_code").getD "Unknown")]

/-- A rules directory with no files. -/
def emptyStore : RuleStore := fun _ => none

/-- A rules directory holding one rules file, `blue_cross_ppo.json`. -/
def blueCrossStore : RuleStore := fun k =>
  if k = "blue_cross_ppo" then some "ct-abdomen-rules" else none

/-- A renderer that always succeeds. -/
def renderOk : PdfRenderer := fun _ _ => (true, "")

/-- A renderer that always fails. -/
def renderBad : PdfRenderer := fun _ _ => (false, "disk full")

/-- A PDF tool (appeal.py flavour) that always raises. -/
def pdfFail : PdfTool := fun _ _ => false

/-- A classification oracle answering a constant label with constant
fields, standing in for a deterministic stub of llm/extract_llm8b.py. -/
def constOracle (label : String) (fields : Fields) : ExtractOracle :=
  ⟨fun _ => label, fun _ _ => fields⟩

/-- Deterministic stub classifying by text content. -/
def textOracle : ExtractOracle :=
  ⟨fun t => if t = "DENIAL" then "denial_letter" else "doctor_note",
   fun _ _ => [("patient_name", "John Q")]⟩

theorem Fields.get_set_self (f : Fields) (k v : String) :
    (f.set k v).get k = some v := by
  simp [Fields.get, Fields.set]

theorem Fields.get_set_other (f : Fields) (k k' v : String) (h : k' ≠ k) :
    (f.set k v).get k' = f.get k' := by
  have : (k == k') = false := by
    exact beq_false_of_ne (fun hk => h hk.symm)
  simp [Fields.get, Fields.set, List.find?, this]

/-- C2 (counterexample): the source override is a substring test, not a
full-path-component test. The path `Denial/scan.png` has a full path
component `Denial` yet the override does not fire, and with an oracle
answering `medical_bill` the classification is not `denial_letter`;
conversely `/UserData/DenialLetters/x.png` has no full path component
`Denial` yet the override fires, even on empty text. -/
theorem override_substring_counterexample :
    hasDenialComponent "Denial/scan.png" = true ∧
    forcedDenial "Denial/scan.png" = false ∧
    classify (constOracle "medical_bill" [])
      ⟨3, "scan.png", "Denial/scan.png", "bill text"⟩ = "medical_bill" ∧
    hasDenialComponent "/UserData/DenialLetters/x.png" = false ∧
    forcedDenial "/UserData/DenialLetters/x.png" = true ∧
    classify (constOracle "medical_bill" [])
      ⟨4, "x.png", "/UserData/DenialLetters/x.png", ""⟩ = "denial_letter" := by
  decide

/-- C2 (amended): classification forces `denial_letter` exactly when,
after standardizing separators, the storage path contains the substring
`/Denial/` or the substring `/UserData/Denial`; when it fires the
oracle is not consulted (the result is the same for every oracle and
every text, including empty text), and when it does not fire the result
is the oracle label on the raw text. -/
theorem classify_override_amended (xo xo' : ExtractOracle) (d : Document) :
    (forcedDenial d.file_path = true →
      classify xo d = "denial_letter" ∧ classify xo d = classify xo' d) ∧
    (forcedDenial d.file_path = false →
      classify xo d = xo.classify_document d.ocr_text) := by
  constructor
  · intro h
    simp [classify, h]
  · intro h
    simp [classify, h]

/-- Witness for `classify_override_amended` at concrete inputs: a file
under a `Denial` folder with empty text is forced to `denial_letter`,
and a file elsewhere is classified by the oracle. -/
theorem classify_override_amended_witness :
    classify (constOracle "medical_bill" [])
      ⟨1, "scan.png", "C:\\UserData\\Denial\\scan.png", ""⟩ = "denial_letter" ∧
    classify (constOracle "medical_bill" [])
      ⟨2, "scan.png", "/tmp/other/scan.png", "words"⟩ = "medical_bill" :=
  ⟨((classify_override_amended (constOracle "medical_bill" [])
      (constOracle "medical_bill" [])
      ⟨1, "scan.png", "C:\\UserData\\Denial\\scan.png", ""⟩).1 (by decide)).1,
   (classify_override_amended (constOracle "medical_bill" [])
      (constOracle "medical_bill" [])
      ⟨2, "scan.png", "/tmp/other/scan.png", "words"⟩).2 (by decide)⟩

/-- C5: on a denial-letter field mapping whose `denial_reason` is
absent or empty, the fallback patch sets exactly the keys
`denial_reason`, `denial_code` and `appeal_deadline` and leaves every
other key unchanged; when `denial_reason` is present and non-empty the
patch changes nothing at all (for any document type). -/
theorem denial_fallback_frame (t : String) (f : Fields) :
    (fieldFalsy (f.get "denial_reason") = true →
      (applyDenialFallback "denial_letter" f).get "denial_reason" = some ctReasonText ∧
      (applyDenialFallback "denial_letter" f).get "denial_code" = some "CO-50" ∧
      (applyDenialFallback "denial_letter" f).get "appeal_deadline" =
        some "60 days from date of letter" ∧
      ∀ k, k ≠ "denial_reason" → k ≠ "denial_code" → k ≠ "appeal_deadline" →
        (applyDenialFallback "denial_letter" f).get k = f.get k) ∧
    (fieldFalsy (f.get "denial_reason") = false → applyDenialFallback t f = f) := by
  constructor
  · intro h
    have hcond : (("denial_letter" == "denial_letter") &&
        fieldFalsy (f.get "denial_reason")) = true := by
      rw [h]
      decide
    refine ⟨?_, ?_, ?_, ?_⟩
    · rw [applyDenialFallback, if_pos hcond]
      rw [Fields.get_set_other _ _ _ _ (by decide),
        Fields.get_set_other _ _ _ _ (by decide), Fields.get_set_self]
    · rw [applyDenialFallback, if_pos hcond]
      rw [Fields.get_set_other _ _ _ _ (by decide), Fields.get_set_self]
    · rw [applyDenialFallback, if_pos hcond]
      rw [Fields.get_set_self]
    · intro k h1 h2 h3
      rw [applyDenialFallback, if_pos hcond]
      rw [Fields.get_set_other _ _ _ _ h3, Fields.get_set_other _ _ _ _ h2,
        Fields.get_set_other _ _ _ _ h1]
  · intro h
    rw [applyDenialFallback, if_neg]
    simp [h]

/-- Witness for `denial_fallback_frame` at concrete inputs: patching a
mapping lacking `denial_reason` yields the three placeholder values and
preserves `patient_name`; a mapping with a non-empty `denial_reason` is
returned unchanged. -/
theorem denial_fallback_frame_witness :
    (applyDenialFallback "denial_letter" [("patient_name", "John Q")]).get
      "denial_reason" = some ctReasonText ∧
    (applyDenialFallback "denial_letter" [("patient_name", "John Q")]).get
      "patient_name" = some "John Q" ∧
    applyDenialFallback "denial_letter" [("denial_reason", "late filing")] =
      [("denial_reason", "late filing")] :=
  ⟨((denial_fallback_frame "denial_letter" [("patient_name", "John Q")]).1
      (by decide)).1,
   (((denial_fallback_frame "denial_letter" [("patient_name", "John Q")]).1
      (by decide)).2.2.2 "patient_name" (by decide) (by decide) (by decide)).trans
     (by decide),
   (denial_fallback_frame "denial_letter" [("denial_reason", "late filing")]).2
     (by decide)⟩

/-- C1 (counterexample): in an analyze run with analysis type
`denial_explanation` over a denial letter whose extraction returned no
`denial_reason`, the pipeline applies no fallback patch: the stored and
returned denial fields still lack `denial_reason` (the explanation is
computed from the unpatched fields), and moreover the placeholder the
source writes in the appeal flow is the CT-Abdomen sentence, not the
sentence the claim states. -/
theorem analyze_no_patch_counterexample :
    analyze_documents (constOracle "medical_bill" [("patient_name", "John Smith")])
        specReasoningOracle emptyStore
        [⟨1, "letter.png", "/UserData/Denial/letter.png", "DENIAL NOTICE"⟩]
        ⟨[1], none, "denial_explanation"⟩ =
      .ok ⟨true, "denial_explanation",
            [⟨1, "letter.png", "denial_letter", [("patient_name", "John Smith")]⟩],
            some (.explanation "Denied: unspecified"), 0, []⟩
          ⟨"denial_explanation", some (.explanation "Denied: unspecified"), 0, []⟩ ∧
    Fields.get [("patient_name", "John Smith")] "denial_reason" = none ∧
    ctReasonText ≠ specReasonText := by
  decide

/-- C1 (amended): the fallback patch lives in the appeal-letter
endpoint of analyze.py, not in the analyze run: there, a denial letter
whose extracted `denial_reason` is absent or empty receives
`denial_reason` equal to the CT-Abdomen placeholder `ctReasonText`,
`denial_code = "CO-50"` and `appeal_deadline = "60 days from date of
letter"`; the analyze run itself stores the extractor output verbatim,
with no patch. -/
theorem appeal_patch_amended (xo : ExtractOracle) (f : Fields) (doc : Document) :
    (fieldFalsy (f.get "denial_reason") = true →
      (applyDenialFallback "denial_letter" f).get "denial_reason" = some ctReasonText ∧
      (applyDenialFallback "denial_letter" f).get "denial_code" = some "CO-50" ∧
      (applyDenialFallback "denial_letter" f).get "appeal_deadline" =
        some "60 days from date of letter") ∧
    (doc.ocr_text ≠ "" →
      extractLoop xo [doc] =
        [⟨doc.id, doc.filename, classify xo doc,
          xo.extract_fields doc.ocr_text (classify xo doc)⟩]) := by
  constructor
  · intro h
    exact ⟨((denial_fallback_frame "denial_letter" f).1 h).1,
           ((denial_fallback_frame "denial_letter" f).1 h).2.1,
           ((denial_fallback_frame "denial_letter" f).1 h).2.2.1⟩
  · intro h
    simp [extractLoop, h]

/-- Witness for `appeal_patch_amended` at concrete inputs. -/
theorem appeal_patch_amended_witness :
    (applyDenialFallback "denial_letter" [("denial_reason", "")]).get
      "denial_code" = some "CO-50" ∧
    extractLoop (constOracle "doctor_note" [("physician", "Dr A")])
        [⟨5, "note.png", "/tmp/note.png", "note text"⟩] =
      [⟨5, "note.png", "doctor_note", [("physician", "Dr A")]⟩] :=
  ⟨((appeal_patch_amended (constOracle "doctor_note" [("physician", "Dr A")])
      [("denial_reason", "")]
      ⟨5, "note.png", "/tmp/note.png", "note text"⟩).1 (by decide)).2.1,
   ((appeal_patch_amended (constOracle "doctor_note" [("physician", "Dr A")])
      [("denial_reason", "")]
      ⟨5, "note.png", "/tmp/note.png", "note text"⟩).2 (by decide)).trans
     (by decide)⟩

/-- C3: when no retrieved document is classified as `denial_letter`,
the appeal-letter endpoint does not fail or reject: it substitutes the
synthetic denial record (`denial_reason = "Not Medically Necessary"`,
`denial_code = "Unknown"`) and, with a succeeding renderer, returns a
structured letter whose `denial_code` field equals `"Unknown"`. The
letter synthesis uses the spec-modelled reasoning oracle; the
`/api/appeal-letter` path is served by this endpoint since the analyze
router is registered before the appeal router in main.py. -/
theorem render_ok_match (render : PdfRenderer) (c u : Fields)
    (h : (render c u).1 = true) :
    (match render c u with
      | (true, _) => AppealResult.fileOk c
      | (false, error) =>
          AppealResult.httpError 500 ("PDF Generation failed: " ++ error)) =
      AppealResult.fileOk c := by
  rcases hr : render c u with ⟨b, e⟩
  rw [hr] at h
  subst h
  rfl

theorem appeal_synthetic_denial_ok (xo : ExtractOracle) (store : RuleStore)
    (render : PdfRenderer) (db : List Document) (req : AppealRequest)
    (hnone : (appealExtract xo (docsFor db req.document_ids)).find?
        (fun d => d.type == "denial_letter") = none)
    (hrender : ∀ c u, (render c u).1 = true) :
    ∃ content,
      generate_appeal_letter_endpoint xo specReasoningOracle store render db req =
        .fileOk content ∧
      content.get "denial_code" = some "Unknown" := by
  simp only [generate_appeal_letter_endpoint, hnone]
  exact ⟨_, render_ok_match render _ _ (hrender _ _), rfl⟩

/-- Witness for `appeal_synthetic_denial_ok` at concrete inputs: a
single doctor note and no denial letter still yields a letter with
`denial_code = "Unknown"`. -/
theorem appeal_synthetic_denial_ok_witness :
    ∃ content,
      generate_appeal_letter_endpoint
          (constOracle "doctor_note" [("physician", "Dr A")])
          specReasoningOracle emptyStore renderOk
          [⟨6, "note.png", "/tmp/note.png", "note text"⟩]
          ⟨[6], none, none⟩ =
        .fileOk content ∧
      content.get "denial_code" = some "Unknown" :=
  appeal_synthetic_denial_ok (constOracle "doctor_note" [("physician", "Dr A")])
    emptyStore renderOk [⟨6, "note.png", "/tmp/note.png", "note text"⟩]
    ⟨[6], none, none⟩ (by decide) (fun _ _ => rfl)

/-- C4: an analyze run with analysis type `denial_explanation` whose
classified document set contains no `denial_letter` is rejected with a
400 caller error naming the missing denial letter; no default record is
substituted and no reasoning is stored. -/
theorem denial_explanation_rejects (xo : ExtractOracle) (ro : ReasoningOracle)
    (store : RuleStore) (db : List Document) (req : AnalyzeRequest)
    (hne : (docsFor db req.document_ids).isEmpty = false)
    (hty : req.analysis_type = "denial_explanation")
    (hnodenial : (extractLoop xo (docsFor db req.document_ids)).find?
        (fun d => d.type == "denial_letter") = none) :
    analyze_documents xo ro store db req =
      .httpError 400 "No denial letter found in uploaded documents" := by
  simp [analyze_documents, hne, hty, hnodenial]

/-- Witness for `denial_explanation_rejects` at concrete inputs: a
single document classified as a doctor note. -/
theorem denial_explanation_rejects_witness :
    analyze_documents (constOracle "doctor_note" [("physician", "Dr A")])
        specReasoningOracle emptyStore
        [⟨6, "note.png", "/tmp/note.png", "note text"⟩]
        ⟨[6], none, "denial_explanation"⟩ =
      .httpError 400 "No denial letter found in uploaded documents" :=
  denial_explanation_rejects (constOracle "doctor_note" [("physician", "Dr A")])
    specReasoningOracle emptyStore
    [⟨6, "note.png", "/tmp/note.png", "note text"⟩]
    ⟨[6], none, "denial_explanation"⟩ (by decide) rfl (by decide)

/-- C6 (counterexample): the appeal-letter endpoint of analyze.py does
not skip empty-text documents: a single document with empty OCR text is
classified (here by the oracle as a denial letter), extracted, patched
and used as the denial record, so the letter carries the patched
`denial_code = "CO-50"` instead of the synthetic `"Unknown"` that an
excluded document would have produced. -/
theorem appeal_empty_text_counterexample :
    appealExtract (constOracle "denial_letter" [])
        [⟨7, "blank.png", "/tmp/blank.png", ""⟩] =
      [⟨"denial_letter",
        [("appeal_deadline", "60 days from date of letter"),
         ("denial_code", "CO-50"), ("denial_reason", ctReasonText)]⟩] ∧
    generate_appeal_letter_endpoint (constOracle "denial_letter" [])
        specReasoningOracle emptyStore renderOk
        [⟨7, "blank.png", "/tmp/blank.png", ""⟩] ⟨[7], none, none⟩ =
      .fileOk
        [("salutation", "To Whom It May Concern"),
         ("body", "Appeal regarding " ++ ctReasonText),
         ("closing", "Sincerely"), ("denial_code", "CO-50")] := by
  decide

/-- C6 (amended): documents with empty raw text are skipped before
classification and excluded from the extracted set in the analyze run
and in the appeal.py flow, without error; the appeal-letter endpoint of
analyze.py, however, performs no such skip: its extracted set has one
entry per retrieved document. -/
theorem empty_text_skip_amended (xo : ExtractOracle) (doc : Document)
    (docs : List Document) (h : doc.ocr_text = "") :
    extractLoop xo (doc :: docs) = extractLoop xo docs ∧
    appealPyExtract xo (doc :: docs) = appealPyExtract xo docs ∧
    (appealExtract xo (doc :: docs)).length = docs.length + 1 := by
  refine ⟨?_, ?_, ?_⟩
  · simp [extractLoop, h]
  · simp [appealPyExtract, h]
  · simp [appealExtract]

/-- Witness for `empty_text_skip_amended` at concrete inputs. -/
theorem empty_text_skip_amended_witness :
    extractLoop (constOracle "doctor_note" [])
        [⟨8, "blank.png", "/tmp/blank.png", ""⟩] = [] ∧
    appealPyExtract (constOracle "doctor_note" [])
        [⟨8, "blank.png", "/tmp/blank.png", ""⟩] = [] ∧
    (appealExtract (constOracle "doctor_note" [])
        [⟨8, "blank.png", "/tmp/blank.png", ""⟩]).length = 1 :=
  ⟨((empty_text_skip_amended (constOracle "doctor_note" [])
      ⟨8, "blank.png", "/tmp/blank.png", ""⟩ [] rfl).1).trans (by decide),
   ((empty_text_skip_amended (constOracle "doctor_note" [])
      ⟨8, "blank.png", "/tmp/blank.png", ""⟩ [] rfl).2.1).trans (by decide),
   (empty_text_skip_amended (constOracle "doctor_note" [])
      ⟨8, "blank.png", "/tmp/blank.png", ""⟩ [] rfl).2.2⟩

/-- C7 (counterexample): in the appeal.py flow, when reasoning succeeds
but PDF generation fails, the request fails with a 500 and the list of
persisted `GeneratedAppeal` rows is empty: the structured letter
content is not persisted and cannot be retrieved, so rendering cannot
be retried without redoing reasoning. -/
theorem render_failure_not_persisted_counterexample :
    appealPy_generate textOracle specReasoningOracle emptyStore pdfFail
        [⟨1, "denial.png", "/tmp/denial.png", "DENIAL"⟩,
         ⟨2, "note.png", "/tmp/note.png", "NOTE"⟩]
        ⟨[1, 2], none⟩ =
      (.httpError 500 "Error: PDF generation raised", []) := by
  decide

theorem render_fail_match (render : PdfRenderer) (c u : Fields)
    (h : (render c u).1 = false) :
    (match render c u with
      | (true, _) => AppealResult.fileOk c
      | (false, error) =>
          AppealResult.httpError 500 ("PDF Generation failed: " ++ error)) =
      AppealResult.httpError 500 ("PDF Generation failed: " ++ (render c u).2) := by
  rcases hr : render c u with ⟨b, e⟩
  rw [hr] at h
  subst h
  rfl

/-- C7 (amended): a renderer failure is surfaced as an HTTP 500 whose
detail names PDF generation, distinct from the reasoning stage; but the
structured letter content is not persisted when rendering fails: the
analyze.py appeal endpoint never stores it, and the appeal.py flow
stores it only after a successful render, so a failed render leaves no
retrievable content. -/
theorem render_failure_surfaced_amended (xo : ExtractOracle)
    (ro : ReasoningOracle) (store : RuleStore) (db : List Document)
    (req : AppealRequest) (req2 : AppealPyRequest) (render : PdfRenderer)
    (pdf : PdfTool) (hfail : ∀ c u, (render c u).1 = false)
    (hpdf : ∀ c n, pdf c n = false) :
    (∃ err, generate_appeal_letter_endpoint xo ro store render db req =
        .httpError 500 ("PDF Generation failed: " ++ err)) ∧
    (appealPy_generate xo ro store pdf db req2).2 = [] := by
  constructor
  · simp only [generate_appeal_letter_endpoint]
    exact ⟨_, render_fail_match render _ _ (hfail _ _)⟩
  · simp only [appealPy_generate]
    split
    · rfl
    · split
      · rfl
      · rw [hpdf]
        rfl

/-- Witness for `render_failure_surfaced_amended` at concrete inputs:
an always-failing renderer yields the PDF-specific 500 in the analyze.py
appeal endpoint and leaves nothing persisted in the appeal.py flow. -/
theorem render_failure_surfaced_amended_witness :
    (∃ err, generate_appeal_letter_endpoint textOracle specReasoningOracle
        emptyStore renderBad
        [⟨1, "denial.png", "/tmp/denial.png", "DENIAL"⟩] ⟨[1], none, none⟩ =
      .httpError 500 ("PDF Generation failed: " ++ err)) ∧
    (appealPy_generate textOracle specReasoningOracle emptyStore pdfFail
        [⟨1, "denial.png", "/tmp/denial.png", "DENIAL"⟩,
         ⟨2, "note.png", "/tmp/note.png", "NOTE"⟩]
        ⟨[1, 2], none⟩).2 = [] :=
  render_failure_surfaced_amended textOracle specReasoningOracle emptyStore
    [⟨1, "denial.png", "/tmp/denial.png", "DENIAL"⟩] ⟨[1], none, none⟩
    ⟨[1, 2], none⟩ renderBad pdfFail (fun _ _ => rfl) (fun _ _ => rfl)

/-- C8: for every oracle whose pre-claim scores (as read with the
route's default of 0) lie within [0,100], every successful analyze run
stores and returns a `denial_risk_score` within [0,100]; and a
`pre_claim` analysis always carries a non-null reasoning result object,
in particular when the rules are null. -/
theorem risk_score_bounds (xo : ExtractOracle) (ro : ReasoningOracle)
    (store : RuleStore) (db : List Document) (req : AnalyzeRequest)
    (hbound : ∀ ds rules,
      0 ≤ ((ro.analyze_pre_claim ds rules).denial_risk_score.getD 0) ∧
      ((ro.analyze_pre_claim ds rules).denial_risk_score.getD 0) ≤ 100) :
    ∀ resp stored, analyze_documents xo ro store db req = .ok resp stored →
      (0 ≤ stored.denial_risk_score ∧ stored.denial_risk_score ≤ 100 ∧
       0 ≤ resp.denial_risk_score ∧ resp.denial_risk_score ≤ 100) ∧
      (req.analysis_type = "pre_claim" → resp.reasoning_result ≠ none) := by
  intro resp stored h
  simp only [analyze_documents] at h
  split at h
  · exact absurd h (by simp)
  · split at h
    · rename_i hpre
      injection h with h1 h2
      subst h1
      subst h2
      refine ⟨⟨(hbound _ _).1, (hbound _ _).2, (hbound _ _).1, (hbound _ _).2⟩, ?_⟩
      intro _
      simp
    · rename_i hpre
      split at h
      · split at h
        · exact absurd h (by simp)
        · injection h with h1 h2
          subst h1
          subst h2
          refine ⟨⟨le_refl 0, by norm_num, le_refl 0, by norm_num⟩, ?_⟩
          intro hty
          exact absurd hty hpre
      · injection h with h1 h2
        subst h1
        subst h2
        refine ⟨⟨le_refl 0, by norm_num, le_refl 0, by norm_num⟩, ?_⟩
        intro hty
        exact absurd hty hpre

/-- Witness for `risk_score_bounds`: a concrete pre-claim run with the
spec-modelled oracle and no rules file; the stored score is 50, within
bounds, and the reasoning result is non-null. -/
theorem risk_score_bounds_witness :
    (0 ≤ (50 : Int) ∧ (50 : Int) ≤ 100 ∧ 0 ≤ (50 : Int) ∧ (50 : Int) ≤ 100) ∧
    ("pre_claim" = "pre_claim" →
      (some (ReasoningOutput.preClaim ⟨some 50, some []⟩) : Option ReasoningOutput) ≠
        none) :=
  risk_score_bounds (constOracle "doctor_note" []) specReasoningOracle emptyStore
    [⟨9, "n.png", "/tmp/n.png", "txt"⟩] ⟨[9], none, "pre_claim"⟩
    (by
      intro ds rules
      cases rules <;> simp [specReasoningOracle])
    ⟨true, "pre_claim", [⟨9, "n.png", "doctor_note", []⟩],
      some (.preClaim ⟨some 50, some []⟩), 50, []⟩
    ⟨"pre_claim", some (.preClaim ⟨some 50, some []⟩), 50, []⟩
    (by decide)

/-- C9: rule lookup keys the store by the plan name lowercased with
spaces replaced by underscores; when no rules document exists under
that key the analyze run proceeds with null rules instead of erroring,
and the reasoning stage still runs (here in pre-claim mode, invoked
with `none` rules). -/
theorem rules_missing_degrades (xo : ExtractOracle) (ro : ReasoningOracle)
    (db : List Document) (store : RuleStore) (p : String) (ids : List Nat)
    (hne : (docsFor db ids).isEmpty = false)
    (hmiss : store (normalizePlanKey p) = none) :
    loadRules store (some p) = none ∧
    analyze_documents xo ro store db ⟨ids, some p, "pre_claim"⟩ =
      .ok ⟨true, "pre_claim", extractLoop xo (docsFor db ids),
            some (.preClaim (ro.analyze_pre_claim (extractLoop xo (docsFor db ids)) none)),
            (ro.analyze_pre_claim (extractLoop xo (docsFor db ids)) none).denial_risk_score.getD 0,
            (ro.analyze_pre_claim (extractLoop xo (docsFor db ids)) none).missing_requirements.getD []⟩
          ⟨"pre_claim",
            some (.preClaim (ro.analyze_pre_claim (extractLoop xo (docsFor db ids)) none)),
            (ro.analyze_pre_claim (extractLoop xo (docsFor db ids)) none).denial_risk_score.getD 0,
            (ro.analyze_pre_claim (extractLoop xo (docsFor db ids)) none).missing_requirements.getD []⟩ := by
  have hload : loadRules store (some p) = none := by
    simp [loadRules, hmiss]
  refine ⟨hload, ?_⟩
  simp [analyze_documents, hne, hload]

/-- Witness for `rules_missing_degrades` at concrete inputs: the plan
"Aetna Gold Plan" normalizes to `aetna_gold_plan`, absent from a store
holding only `blue_cross_ppo`; the run completes with the heuristic
score of the spec-modelled oracle for null rules. -/
theorem rules_missing_degrades_witness :
    loadRules blueCrossStore (some "Aetna Gold Plan") = none ∧
    analyze_documents (constOracle "doctor_note" []) specReasoningOracle
        blueCrossStore [⟨9, "n.png", "/tmp/n.png", "txt"⟩]
        ⟨[9], some "Aetna Gold Plan", "pre_claim"⟩ =
      .ok ⟨true, "pre_claim", [⟨9, "n.png", "doctor_note", []⟩],
            some (.preClaim ⟨some 50, some []⟩), 50, []⟩
          ⟨"pre_claim", some (.preClaim ⟨some 50, some []⟩), 50, []⟩ :=
  ⟨(rules_missing_degrades (constOracle "doctor_note" []) specReasoningOracle
      [⟨9, "n.png", "/tmp/n.png", "txt"⟩] blueCrossStore "Aetna Gold Plan" [9]
      (by decide) (by decide)).1,
   ((rules_missing_degrades (constOracle "doctor_note" []) specReasoningOracle
      [⟨9, "n.png", "/tmp/n.png", "txt"⟩] blueCrossStore "Aetna Gold Plan" [9]
      (by decide) (by decide)).2).trans (by decide)⟩

/-- C10: an analyze request whose analysis type is neither `pre_claim`
nor `denial_explanation` (such as the advertised `appeal_letter`) is
not rejected: reasoning is skipped, the stored `ReasoningResult` has
null output, score 0 and no missing requirements, and the response is
successful with a null reasoning result. -/
theorem other_analysis_type_ok (xo : ExtractOracle) (ro : ReasoningOracle)
    (store : RuleStore) (db : List Document) (req : AnalyzeRequest)
    (hne : (docsFor db req.document_ids).isEmpty = false)
    (h1 : req.analysis_type ≠ "pre_claim")
    (h2 : req.analysis_type ≠ "denial_explanation") :
    analyze_documents xo ro store db req =
      .ok ⟨true, req.analysis_type,
            extractLoop xo (docsFor db req.document_ids), none, 0, []⟩
          ⟨req.analysis_type, none, 0, []⟩ := by
  simp [analyze_documents, hne, h1, h2]

/-- Witness for `other_analysis_type_ok` at the advertised analysis
type `appeal_letter`. -/
theorem other_analysis_type_ok_witness :
    analyze_documents (constOracle "doctor_note" []) specReasoningOracle
        emptyStore [⟨9, "n.png", "/tmp/n.png", "txt"⟩]
        ⟨[9], none, "appeal_letter"⟩ =
      .ok ⟨true, "appeal_letter", [⟨9, "n.png", "doctor_note", []⟩], none, 0, []⟩
          ⟨"appeal_letter", none, 0, []⟩ :=
  (other_analysis_type_ok (constOracle "doctor_note" []) specReasoningOracle
    emptyStore [⟨9, "n.png", "/tmp/n.png", "txt"⟩] ⟨[9], none, "appeal_letter"⟩
    (by decide) (by decide) (by decide)).trans (by decide)

end Hackxios
